import Mathlib

/-
Verification of the `spotify_downloader` Python module (Resonanz).

The module is embedded shallowly: every external effect (the yt-dlp search and
download capabilities, the filesystem, glob, the progress transport and the
asynchronously-set cancellation flag) is an explicit environment value, and the
functions of the module become pure Lean functions over those environments that
return their result together with the list of progress events they emit.

Cancellation: the Python flag `_cancel_requested` is set asynchronously and read
cooperatively.  Each read of the flag is one tick of a poll counter; the
environment fixes the tick from which the flag reads true (`cancelled_at`).
Since the flag is only ever set (never cleared during a run), this threshold
model captures every possible interleaving of the setter with the reads.

glob: `glob.glob` is part of the environment (`beforeGlob`, `afterGlob`,
`globStem`) rather than a function of the directory listing, because its result
is not a pure function of the directory contents: the pattern
`output_template*` treats `[`, `]` and `?` in the sanitized stem as
metacharacters (sanitize_filename removes `?` and `*` but keeps `[` and `]`),
so a stem containing brackets makes the glob miss files that do exist.
-/

/-- Progress events sent through the Kotlin callback (`_send_progress`).
Payload fields not inspected by any claim (percent and speed strings of
`track_progress`, the output_dir of `playlist_start`) are omitted. -/
inductive Event where
  | playlist_start (total : Nat)
  | track_start (index total : Nat) (track artist : String)
  | track_progress (index : Nat) (track artist : String)
  | track_skipped (index : Nat) (track : String)
  | track_complete (index total : Nat) (track artist path : String)
  | track_failed (index : Nat) (track artist error : String)
  | search_error (track artist error : String)
  | cancelled (downloaded remaining : Nat)
  | playlist_complete (total downloaded failed : Nat)
  | error (message : String)
  | m3u_created (path : String)
  | warning (message : String)
deriving DecidableEq, Repr

/-- Python truthiness of an optional string: `None` and `""` are falsy. -/
def truthy : Option String → Bool
  | some s => s != ""
  | none => false

/-- `a or b` on optional strings with Python truthiness (line 153 of the source:
`entries[0].get('url') or entries[0].get('id')`). -/
def orElseTruthy (a b : Option String) : Option String :=
  if truthy a then a else b

/-- Python `str.lower()` (per-character, as for the ASCII data at hand). -/
def lowerStr (s : String) : String :=
  String.mk (s.toList.map Char.toLower)

/-- An ASCII whitespace character as stripped by Python `str.strip()`. -/
def isWh (c : Char) : Bool :=
  c = ' ' || c = '\t' || c = '\n' || c = '\r'

/-- Python `str.strip()`: drop whitespace from both ends. -/
def stripStr (s : String) : String :=
  String.mk (((s.toList.dropWhile isWh).reverse.dropWhile isWh).reverse)

/-- Substring occurrence on character lists. -/
def hasSubstr : List Char → List Char → Bool
  | [], pat => pat.isEmpty
  | c :: t, pat => pat.isPrefixOf (c :: t) || hasSubstr t pat

/-- Substring test, Python `pat in s`. -/
def containsSub (s pat : String) : Bool :=
  hasSubstr s.toList pat.toList

/-- Python `str.endswith(suffix)`. -/
def strEndsWith (s suffix : String) : Bool :=
  suffix.toList.isSuffixOf s.toList

/- ------------------------------------------------------------------ -/
/- CSV Normalizer: `parse_csv` (source lines 48-120)                   -/
/- ------------------------------------------------------------------ -/

/-- A canonical track record.  Python builds a dict with possibly-missing
keys, so every field is optional; `trk.track_name.getD ""` models
`track.get('track_name', '')`. -/
structure Track where
  track_name : Option String := none
  artist_name : Option String := none
  album_name : Option String := none
deriving DecidableEq, Inhabited, Repr

/-- The fixed header synonym table of `parse_csv` (source lines 66-94),
keyed by the lowercased, trimmed header. -/
def header_map (k : String) : Option String :=
  if k = "track name" ∨ k = "track_name" ∨ k = "trackname" ∨ k = "song name" ∨
     k = "song_name" ∨ k = "songname" ∨ k = "title" ∨ k = "name" ∨
     k = "track" ∨ k = "song" then some "track_name"
  else if k = "artist name" ∨ k = "artist_name" ∨ k = "artistname" ∨
     k = "artist name(s)" ∨ k = "artist names" ∨ k = "artist" ∨
     k = "artists" ∨ k = "performer" then some "artist_name"
  else if k = "album name" ∨ k = "album_name" ∨ k = "albumname" ∨ k = "album"
     then some "album_name"
  else none

/-- Assignment to one canonical field (`track[header_map[key]] = value`). -/
def setField (t : Track) (k v : String) : Track :=
  if k = "track_name" then { t with track_name := some v }
  else if k = "artist_name" then { t with artist_name := some v }
  else if k = "album_name" then { t with album_name := some v }
  else t

/-- Dict insertion with overwrite, modelling Python dict assignment while
keeping first-insertion iteration order. -/
def dictInsert (d : List (String × String)) (k v : String) : List (String × String) :=
  if d.any (fun p => p.1 == k) then
    d.map (fun p => if p.1 == k then (k, v) else p)
  else d ++ [(k, v)]

/-- The row dict produced by `csv.DictReader`: fieldnames zipped with the row
values.  `zip` truncates at the shorter list, matching the reader: values
beyond the header are keyed by `None` and header fields beyond the row get
value `None`, and the loop at lines 98-103 skips both (`if key is None or
value is None: continue`). -/
def rowDict (fieldnames row : List String) : List (String × String) :=
  (List.zip fieldnames row).foldl (fun d kv => dictInsert d kv.1 kv.2) []

/-- The per-row mapping of `parse_csv` (source lines 96-103): every header is
lowercased and trimmed, looked up in the synonym table, and the trimmed value
is stored under the canonical key. -/
def buildTrack (fieldnames row : List String) : Track :=
  (rowDict fieldnames row).foldl
    (fun t kv =>
      match header_map (stripStr (lowerStr kv.1)) with
      | some ck => setField t ck (stripStr kv.2)
      | none => t)
    {}

/-- Row retention test (source line 110): both track and artist present and
non-empty (Python truthiness on `track.get`). -/
def trackOk (t : Track) : Bool :=
  (t.track_name.getD "" != "") && (t.artist_name.getD "" != "")

/-- Input to `parse_csv` after the `csv` module has tokenized it.  `header` is
what `DictReader` read as fieldnames, `rows` are the value rows the reader
yielded, and `err` records whether the iteration ended in a parse exception
(the csv module raises lazily, e.g. on a NUL byte, after having yielded the
earlier rows). -/
structure CsvInput where
  header : List String
  rows : List (List String)
  err : Bool
deriving DecidableEq, Repr

/-- `parse_csv` (source lines 48-120).  The whole row loop sits in a
`try ... except` whose handler logs and falls through to `return tracks`, so
the result is the accumulated track list of the yielded rows whether or not
the iteration ended in an exception: the `err` flag does not influence the
value, which is exactly the swallowing behaviour of the handler. -/
def parse_csv (input : CsvInput) : List Track :=
  input.rows.foldl
    (fun acc row =>
      let t := buildTrack input.header row
      if trackOk t then acc ++ [t] else acc)
    []

/- ------------------------------------------------------------------ -/
/- sanitize_filename (source lines 123-131)                            -/
/- ------------------------------------------------------------------ -/

/-- The character class of the regex `[<>:"/\\|?*]`. -/
def invalidChar (c : Char) : Bool :=
  c = '<' || c = '>' || c = ':' || c = '"' || c = '/' || c = '\\' ||
  c = '|' || c = '?' || c = '*'

/-- A character stripped by `.strip('. ')`. -/
def dotOrSpace (c : Char) : Bool := c = '.' || c = ' '

/-- `sanitize_filename`: drop the invalid characters, strip leading and
trailing dots and spaces, truncate to 200 characters. -/
def sanitize_filename (name : String) : String :=
  let chars := name.toList.filter (fun c => !invalidChar c)
  let chars := chars.dropWhile dotOrSpace
  let chars := (chars.reverse.dropWhile dotOrSpace).reverse
  String.mk (chars.take 200)

/- ------------------------------------------------------------------ -/
/- Source Resolver: `search_youtube` (source lines 134-161)            -/
/- ------------------------------------------------------------------ -/

/-- One invocation of the external search capability
(`ydl.extract_info(query, download=False)`): it raises, or returns a result
whose first entry carries optional `url` and `id` fields, or returns nothing
usable (`None`, no `entries` key, or empty `entries`). -/
inductive SearchOutcome where
  | raises (msg : String)
  | found (url id : Option String)
  | empty
deriving DecidableEq, Repr

/-- The search capability as a function of the query string. -/
structure SearchEnv where
  search : String → SearchOutcome

/-- The query built at line 140: `f"{artist_name} - {track_name}"`. -/
def search_query (track_name artist_name : String) : String :=
  artist_name ++ " - " ++ track_name

/-- `search_youtube` (source lines 134-161): one query, first entry's
`url or id`; an exception from the capability is caught, reported as a
`search_error` event and mapped to `None`. -/
def search_youtube (env : SearchEnv) (track_name artist_name : String) :
    Option String × List Event :=
  match env.search ("ytsearch1:" ++ search_query track_name artist_name) with
  | .raises msg => (none, [.search_error track_name artist_name msg])
  | .found url id => (orElseTruthy url id, [])
  | .empty => (none, [])

/- ------------------------------------------------------------------ -/
/- Playlist Index Writer: `generate_m3u` (source lines 578-598)        -/
/- ------------------------------------------------------------------ -/

/-- The filesystem side of `generate_m3u`: whether `open`/`write` succeeds,
and the exception text when it does not. -/
structure M3uEnv where
  writeOk : Bool
  failMsg : String

/-- `os.path.basename`: the part after the last slash. -/
def basename (p : String) : String :=
  String.mk ((p.toList.reverse.takeWhile (fun c => c ≠ '/')).reverse)

/-- The bytes written to the playlist file: the `#EXTM3U` header line then one
basename line per output file. -/
def m3u_content (output_files : List String) : String :=
  "#EXTM3U\n" ++ String.join (output_files.map (fun f => basename f ++ "\n"))

/-- `generate_m3u`: result path, the (path, content) actually written (if
any), and the emitted events. -/
def generate_m3u (env : M3uEnv) (output_files : List String)
    (playlist_name output_dir : String) :
    Option String × Option (String × String) × List Event :=
  if output_files.isEmpty then (none, none, [])
  else
    let m3u_path := output_dir ++ "/" ++ sanitize_filename playlist_name ++ ".m3u"
    if env.writeOk then
      (some m3u_path, some (m3u_path, m3u_content output_files),
       [.m3u_created m3u_path])
    else
      (none, none, [.warning ("Could not create M3U: " ++ env.failMsg)])

/- ------------------------------------------------------------------ -/
/- Helper lemmas                                                       -/
/- ------------------------------------------------------------------ -/

/-- The accumulating row loop of `parse_csv` is an order-preserving
filterMap. -/
theorem parse_foldl_filterMap (header : List String) :
    ∀ (rows : List (List String)) (acc : List Track),
      rows.foldl
        (fun acc row =>
          let t := buildTrack header row
          if trackOk t then acc ++ [t] else acc) acc
      = acc ++ rows.filterMap (fun row =>
          let t := buildTrack header row
          if trackOk t then some t else none) := by
  intro rows
  induction rows with
  | nil => intro acc; simp
  | cons r rs ih =>
      intro acc
      simp only [List.foldl_cons, List.filterMap_cons]
      by_cases h : trackOk (buildTrack header r) = true
      · simp only [h, if_true, ih, List.append_assoc, List.cons_append,
          List.nil_append]
      · simp only [Bool.not_eq_true] at h
        simp only [h, Bool.false_eq_true, if_false, ih]

/- ------------------------------------------------------------------ -/
/- Claim C5                                                            -/
/- ------------------------------------------------------------------ -/

/-- C5 counterexample: the claim says parse_csv maps any malformed CSV text to
an empty track list.  But a CSV whose iteration raises only after yielding a
valid row (e.g. a NUL byte on the second data line) produces that row: the
except-handler returns the tracks accumulated before the exception, which is
not the empty list. -/
theorem C5_counterexample :
    parse_csv { header := ["Title", "Artist"], rows := [["Hello", "World"]], err := true }
      = [{ track_name := some "Hello", artist_name := some "World", album_name := none }]
    ∧ parse_csv { header := ["Title", "Artist"], rows := [["Hello", "World"]], err := true }
      ≠ ([] : List Track) := by
  constructor
  · decide
  · decide

/-- C5 (amended): parse_csv never propagates a parse exception (the result is
independent of whether the iteration ended in one), and returns, preserving
input row order, exactly those yielded rows whose header-mapped and trimmed
track_name and artist_name are both non-empty; malformed input therefore
yields the tracks parsed before the malformation, which is empty only when no
valid row precedes it. -/
theorem C5_amended_theorem (input : CsvInput) :
    parse_csv input
      = parse_csv { header := input.header, rows := input.rows, err := false }
    ∧ parse_csv input
      = input.rows.filterMap (fun row =>
          let t := buildTrack input.header row
          if trackOk t then some t else none) := by
  constructor
  · rfl
  · have h := parse_foldl_filterMap input.header input.rows []
    simpa [parse_csv] using h

/- ------------------------------------------------------------------ -/
/- Claim C6                                                            -/
/- ------------------------------------------------------------------ -/

/-- C6: search_youtube builds the single query "{artist} - {track}" (issued as
"ytsearch1:{artist} - {track}") and its behaviour depends only on the
capability's answer to that one query (no retries); an exception from the
capability is caught, reported as a search_error event and mapped to the
NotFound result None; the function is total, never raising to its caller. -/
theorem C6_theorem (env : SearchEnv) (track_name artist_name : String) :
    (∀ msg,
        env.search ("ytsearch1:" ++ (artist_name ++ " - " ++ track_name)) = .raises msg →
        search_youtube env track_name artist_name
          = (none, [.search_error track_name artist_name msg]))
    ∧ (∀ env2 : SearchEnv,
        env2.search ("ytsearch1:" ++ (artist_name ++ " - " ++ track_name))
          = env.search ("ytsearch1:" ++ (artist_name ++ " - " ++ track_name)) →
        search_youtube env2 track_name artist_name
          = search_youtube env track_name artist_name) := by
  constructor
  · intro msg h
    simp only [search_youtube, search_query]
    rw [h]
  · intro env2 h
    simp only [search_youtube, search_query]
    rw [h]

def envC6 : SearchEnv := ⟨fun _ => .raises "boom"⟩

/-- Witness for C6: a capability that raises is mapped to None plus a
search_error event. -/
theorem C6_witness :
    search_youtube envC6 "T" "A" = (none, [.search_error "T" "A" "boom"]) :=
  (C6_theorem envC6 "T" "A").1 "boom" rfl

/- ------------------------------------------------------------------ -/
/- Claim C8                                                            -/
/- ------------------------------------------------------------------ -/

/-- C8: generate_m3u returns none and writes nothing on an empty file list;
otherwise it writes the file "<sanitized name>.m3u" in the output directory
containing the #EXTM3U header line followed by one basename line per output
file in order; a write failure is caught, reported as a warning event, and
yields none; in particular ["a.m4a", "b.mp3"] with name "My Mix" produce
"My Mix.m3u" with the three lines #EXTM3U, a.m4a, b.mp3. -/
theorem C8_theorem (env : M3uEnv) (files : List String) (nm dir : String) :
    (generate_m3u env [] nm dir = (none, none, []))
    ∧ (files ≠ [] → env.writeOk = true →
        generate_m3u env files nm dir
          = (some (dir ++ "/" ++ sanitize_filename nm ++ ".m3u"),
             some (dir ++ "/" ++ sanitize_filename nm ++ ".m3u",
               "#EXTM3U\n" ++ String.join (files.map (fun f => basename f ++ "\n"))),
             [.m3u_created (dir ++ "/" ++ sanitize_filename nm ++ ".m3u")]))
    ∧ (files ≠ [] → env.writeOk = false →
        generate_m3u env files nm dir
          = (none, none, [.warning ("Could not create M3U: " ++ env.failMsg)]))
    ∧ (generate_m3u ⟨true, ""⟩ ["a.m4a", "b.mp3"] "My Mix" "out"
        = (some "out/My Mix.m3u",
           some ("out/My Mix.m3u", "#EXTM3U\na.m4a\nb.mp3\n"),
           [.m3u_created "out/My Mix.m3u"])) := by
  refine ⟨rfl, ?_, ?_, by decide⟩
  · intro hne hw
    have he : files.isEmpty = false := by
      cases files with
      | nil => exact absurd rfl hne
      | cons a l => rfl
    simp only [generate_m3u, he, Bool.false_eq_true, if_false, hw, if_true,
      m3u_content]
  · intro hne hw
    have he : files.isEmpty = false := by
      cases files with
      | nil => exact absurd rfl hne
      | cons a l => rfl
    simp only [generate_m3u, he, Bool.false_eq_true, if_false, hw]

/-- Witness for C8: a failing write on a non-empty list yields none and a
warning event. -/
theorem C8_witness :
    generate_m3u ⟨false, "disk full"⟩ ["a.m4a"] "P" "o"
      = (none, none, [Event.warning "Could not create M3U: disk full"]) := by
  have h := (C8_theorem ⟨false, "disk full"⟩ ["a.m4a"] "P" "o").2.2.1
    (by simp) rfl
  exact h

/- ------------------------------------------------------------------ -/
/- Track Fetcher: `download_track` (source lines 164-382)              -/
/- ------------------------------------------------------------------ -/

/-- The cooperative cancellation flag.  Reads of `_cancel_requested` are
numbered by a poll counter; the external cancel request arrives between two
reads, so the flag reads true exactly from some threshold tick on (`none`
when cancellation is never requested during the run). -/
def cancelled_at : Option Nat → Nat → Bool
  | none, _ => false
  | some c, n => decide (c ≤ n)

/-- The part of the yt-dlp info dict inspected by `download_track`:
`_filename`, the `filepath` fields of `requested_downloads`, and `ext`.
Thumbnail data only feeds the tagger and is omitted. -/
structure InfoDict where
  filename : Option String
  requested_downloads : List (Option String)
  ext : Option String
deriving DecidableEq, Repr

/-- The environment of one `download_track` call: the search capability, the
glob results (before/after snapshots of `output_dir/*` and the later
`output_template*` pattern), the number of progress-hook invocations the
download triggers, whether the download raises (non-cancellation), the
returned info dict, and `os.path.exists` on the post-download filesystem. -/
structure TrackEnv where
  search : String → SearchOutcome
  beforeGlob : List String
  afterGlob : List String
  hookPolls : Nat
  dlRaises : Option String
  info : Option InfoDict
  globStem : List String
  onDisk : String → Bool

/-- Index of the first progress-hook invocation that observes the
cancellation flag set (each invocation reads the flag once, at ticks
ctr, ctr+1, ...); that invocation raises `Exception("Download cancelled")`. -/
def hookCancelIndex (cA : Option Nat) (ctr polls : Nat) : Option Nat :=
  (List.range polls).find? (fun j => cancelled_at cA (ctr + j))

/-- The audio-extension allowlist of the glob fallback (source line 308). -/
def audioExts : List String :=
  [".m4a", ".mp3", ".webm", ".opus", ".ogg", ".mp4", ".aac"]

/-- The extensions probed directly by the last fallback (source line 320).
Note: this list does not contain ".aac". -/
def probeExts : List String :=
  [".m4a", ".webm", ".opus", ".mp3", ".ogg", ".mp4"]

/-- The recurring guard `if not downloaded_file or not
os.path.exists(downloaded_file)` (source lines 301, 318, 329). -/
def fileMissing (env : TrackEnv) : Option String → Bool
  | none => true
  | some s => (s == "") || !env.onDisk s

/-- The final verification (source lines 327-336): an unidentified or
non-existing path yields None. -/
def finalCheck (env : TrackEnv) : Option String → Option String
  | none => none
  | some p => if (p == "") || !env.onDisk p then none else some p

/-- File identification (source lines 253-336): (1) the set-difference of the
directory snapshots; (2) `_filename`, else `requested_downloads[0].filepath`,
else a path constructed from the reported extension; (3) the
`output_template*` glob preferring allowlisted audio extensions; (4) the
direct extension probe; then the final existence verification. -/
def identifyFile (env : TrackEnv) (output_template : String) : Option String :=
  let new_files := env.afterGlob.filter (fun x => !env.beforeGlob.contains x)
  let df0 : Option String := new_files.head?
  let df1 : Option String :=
    if truthy df0 then df0
    else
      match env.info with
      | none => df0
      | some info =>
          let a := info.filename
          let b :=
            if truthy a then a
            else
              match info.requested_downloads with
              | [] => a
              | item :: _ => item
          if truthy b then b
          else some (output_template ++ "." ++ info.ext.getD "m4a")
  let df2 : Option String :=
    if fileMissing env df1 then
      match env.globStem.filter (fun m => audioExts.any (fun e => strEndsWith m e)) with
      | am :: _ => some am
      | [] =>
          match env.globStem with
          | m :: _ => some m
          | [] => df1
    else df1
  let df3 : Option String :=
    if fileMissing env df2 then
      match probeExts.find? (fun e => env.onDisk (output_template ++ e)) with
      | some e => some (output_template ++ e)
      | none => df2
    else df2
  finalCheck env df3

/-- `download_track` (source lines 164-382).  Takes the poll counter at entry
and returns (result, emitted events, poll counter after).  The flag is read at
entry (line 179), after the search (line 201) and once per progress-hook
invocation (line 210); a hook that sees it set raises
`Exception("Download cancelled")`, which the handler at line 371 recognizes by
the substring "cancelled" and maps to None without a `track_failed` event.
`set_id3_tags` never raises past its boundary and emits no events, so it does
not appear in the result. -/
def download_track (env : TrackEnv) (cA : Option Nat) (ctr : Nat)
    (track_name artist_name album_name output_dir : String)
    (track_index total_tracks : Nat) :
    Option String × List Event × Nat :=
  if cancelled_at cA ctr then (none, [], ctr + 1)
  else
    let ev0 : List Event := [.track_start track_index total_tracks track_name artist_name]
    let sres := search_youtube ⟨env.search⟩ track_name artist_name
    if truthy sres.1 then
      if cancelled_at cA (ctr + 1) then (none, ev0 ++ sres.2, ctr + 2)
      else
        let output_template :=
          output_dir ++ "/" ++ sanitize_filename (artist_name ++ " - " ++ track_name)
        let ev1 := ev0 ++ sres.2 ++ [.track_progress track_index track_name artist_name]
        match hookCancelIndex cA (ctr + 2) env.hookPolls with
        | some j =>
            if containsSub (lowerStr "Download cancelled") "cancelled" then
              (none, ev1 ++ List.replicate j (.track_progress track_index track_name artist_name),
               ctr + 2 + j + 1)
            else
              (none, ev1 ++ List.replicate j (.track_progress track_index track_name artist_name)
                 ++ [.track_failed track_index track_name artist_name "Download cancelled"],
               ctr + 2 + j + 1)
        | none =>
            let ev2 := ev1 ++ List.replicate env.hookPolls
              (.track_progress track_index track_name artist_name)
            match env.dlRaises with
            | some msg =>
                if containsSub (lowerStr msg) "cancelled" then
                  (none, ev2, ctr + 2 + env.hookPolls)
                else
                  (none, ev2 ++ [.track_failed track_index track_name artist_name msg],
                   ctr + 2 + env.hookPolls)
            | none =>
                match identifyFile env output_template with
                | none => (none, ev2, ctr + 2 + env.hookPolls)
                | some p =>
                    (some p,
                     ev2 ++ [.track_complete track_index total_tracks track_name artist_name p],
                     ctr + 2 + env.hookPolls)
    else
      (none, ev0 ++ sres.2 ++ [.track_failed track_index track_name artist_name
        "No YouTube result found"], ctr + 1)

/- Helper lemmas about download_track's building blocks. -/

/-- When cancellation is never requested, no progress-hook invocation sees
the flag. -/
theorem hookCancelIndex_none (ctr polls : Nat) :
    hookCancelIndex none ctr polls = none := by
  simp [hookCancelIndex, cancelled_at, List.find?_eq_none]

/-- String data distributes over append. -/
theorem data_append (s t : String) : (s ++ t).data = s.data ++ t.data := rfl

/-- Appending a non-empty string yields a non-empty string. -/
theorem append_right_ne (s e : String) (he : e ≠ "") : s ++ e ≠ "" := by
  intro h
  apply he
  have hd : s.data ++ e.data = ([] : List Char) := by
    rw [← data_append, h]
  have he2 : e.data = [] := (List.append_eq_nil.mp hd).2
  cases e with
  | mk l =>
      have hl : l = [] := he2
      rw [hl]

/-- The final verification only lets through a non-empty path that exists on
disk. -/
theorem finalCheck_some (env : TrackEnv) (df : Option String) (p : String)
    (h : finalCheck env df = some p) : env.onDisk p = true ∧ p ≠ "" := by
  cases df with
  | none => simp [finalCheck] at h
  | some q =>
      cases hqe : (q == "") with
      | true => simp [finalCheck, hqe] at h
      | false =>
          cases hd : env.onDisk q with
          | false => simp [finalCheck, hqe, hd] at h
          | true =>
              simp [finalCheck, hqe, hd] at h
              subst h
              refine ⟨hd, ?_⟩
              simpa using hqe

/-- Any path returned by the file-identification chain exists on disk. -/
theorem identifyFile_onDisk (env : TrackEnv) (tpl p : String)
    (h : identifyFile env tpl = some p) : env.onDisk p = true ∧ p ≠ "" := by
  simp only [identifyFile] at h
  exact finalCheck_some env _ p h

/- ------------------------------------------------------------------ -/
/- Claim C9                                                            -/
/- ------------------------------------------------------------------ -/

/-- C9: whenever download_track returns a path, that path passed the final
os.path.exists verification: no caller receives a success result naming a
non-existent file. -/
theorem C9_theorem (env : TrackEnv) (cA : Option Nat) (ctr : Nat)
    (track_name artist_name album_name output_dir : String)
    (track_index total_tracks : Nat) (p : String)
    (h : (download_track env cA ctr track_name artist_name album_name output_dir
            track_index total_tracks).1 = some p) :
    env.onDisk p = true := by
  simp only [download_track] at h
  repeat' split at h
  all_goals simp at h
  subst h
  rename_i heq
  exact (identifyFile_onDisk env _ _ heq).1

def envC9 : TrackEnv :=
  { search := fun _ => .found (some "u") none
    beforeGlob := []
    afterGlob := ["d/new.m4a"]
    hookPolls := 0
    dlRaises := none
    info := none
    globStem := []
    onDisk := fun s => s == "d/new.m4a" }

/-- Witness for C9: a concrete successful download whose returned path the
theorem certifies to exist. -/
theorem C9_witness :
    (download_track envC9 none 0 "T" "A" "" "d" 1 1).1 = some "d/new.m4a"
    ∧ envC9.onDisk "d/new.m4a" = true :=
  ⟨by decide, C9_theorem envC9 none 0 "T" "A" "" "d" 1 1 "d/new.m4a" (by decide)⟩

/- ------------------------------------------------------------------ -/
/- Claim C2                                                            -/
/- ------------------------------------------------------------------ -/

/-- C2: when the returned metadata has no _filename and no
requested_downloads, but the directory set-difference finds exactly one new
file that exists on disk, download_track returns Success with exactly that
file's path: the set-difference is the first, authoritative strategy, and the
later strategies (reported extension, glob, direct probe — all unconstrained
in the environment here) never override it. -/
theorem C2_theorem (env : TrackEnv) (ctr : Nat)
    (track_name artist_name album_name output_dir : String)
    (track_index total_tracks : Nat) (f : String) (info : InfoDict)
    (hs : truthy (search_youtube ⟨env.search⟩ track_name artist_name).1 = true)
    (hinfo : env.info = some info)
    (hfn : info.filename = none)
    (hrq : info.requested_downloads = [])
    (hdr : env.dlRaises = none)
    (hnew : env.afterGlob.filter (fun x => !env.beforeGlob.contains x) = [f])
    (hex : env.onDisk f = true)
    (hne : f ≠ "") :
    (download_track env none ctr track_name artist_name album_name output_dir
        track_index total_tracks).1 = some f := by
  have hid : identifyFile env
      (output_dir ++ "/" ++ sanitize_filename (artist_name ++ " - " ++ track_name))
      = some f := by
    simp only [identifyFile]
    rw [hnew]
    simp [truthy, hne, fileMissing, hex, finalCheck]
  simp [download_track, hs, cancelled_at, hookCancelIndex_none, hdr, hid]

def envC2 : TrackEnv :=
  { search := fun _ => .found (some "u") none
    beforeGlob := []
    afterGlob := ["d/s.m4a"]
    hookPolls := 0
    dlRaises := none
    info := some ⟨none, [], some "m4a"⟩
    globStem := []
    onDisk := fun s => s == "d/s.m4a" }

/-- Witness for C2: metadata with no _filename and no requested_downloads,
one new file d/s.m4a, and the result is exactly that path. -/
theorem C2_witness :
    (download_track envC2 none 0 "T" "A" "" "d" 1 1).1 = some "d/s.m4a" :=
  C2_theorem envC2 0 "T" "A" "" "d" 1 1 "d/s.m4a" ⟨none, [], some "m4a"⟩
    (by decide) rfl rfl rfl rfl (by decide) (by decide) (by decide)

/- ------------------------------------------------------------------ -/
/- Claim C4                                                            -/
/- ------------------------------------------------------------------ -/

def envC4 : TrackEnv :=
  { search := fun _ => .found (some "u") none
    beforeGlob := ["d/a[0 - ].aac"]
    afterGlob := ["d/a[0 - ].aac"]
    hookPolls := 0
    dlRaises := none
    info := some ⟨none, [], some "m4a"⟩
    globStem := []
    onDisk := fun s => s == "d/a[0 - ].aac" }

/-- C4 counterexample: the claim says the final fallback probes every
extension of the allowlist {m4a, mp3, webm, opus, ogg, mp4, aac}, so a file
sanitizedStem.aac on disk would be found.  In the code the probe loop (line
320) tries only ['.m4a', '.webm', '.opus', '.mp3', '.ogg', '.mp4'] — no
'.aac'.  Concretely: the track "]" by "a[0" has sanitized stem "a[0 - ]";
the file d/a[0 - ].aac already existed (yt-dlp overwrote it, so the
set-difference is empty), the metadata reports ext m4a and no _filename or
requested_downloads, and the glob over "d/a[0 - ]*" returns nothing because
"[0 - ]" is a character class that does not match the literal bracket.  The
.aac file exists and is in the allowlist, yet download_track returns None. -/
theorem C4_counterexample :
    envC4.onDisk ("d/" ++ sanitize_filename ("a[0" ++ " - " ++ "]") ++ ".aac") = true
    ∧ ".aac" ∈ audioExts
    ∧ (download_track envC4 none 0 "]" "a[0" "" "d" 1 1).1 = none := by
  refine ⟨by decide, by decide, by decide⟩

/-- C4 (amended): when the earlier strategies yield no existing file (no new
files, no _filename, no requested_downloads, constructed path absent, empty
glob), the final fallback probes the constructed path output_template + ext
for the six extensions ['.m4a', '.webm', '.opus', '.mp3', '.ogg', '.mp4'] in
that order and returns the first probe that exists on disk (None when none
does); '.aac', though in the glob allowlist, is not probed. -/
theorem C4_amended_theorem (env : TrackEnv) (ctr : Nat)
    (track_name artist_name album_name output_dir : String)
    (track_index total_tracks : Nat) (info : InfoDict)
    (hs : truthy (search_youtube ⟨env.search⟩ track_name artist_name).1 = true)
    (hinfo : env.info = some info)
    (hfn : info.filename = none)
    (hrq : info.requested_downloads = [])
    (hdr : env.dlRaises = none)
    (hnew : env.afterGlob.filter (fun x => !env.beforeGlob.contains x) = [])
    (hglob : env.globStem = [])
    (hcon : env.onDisk ((output_dir ++ "/" ++ sanitize_filename (artist_name ++ " - " ++ track_name))
        ++ "." ++ info.ext.getD "m4a") = false) :
    (download_track env none ctr track_name artist_name album_name output_dir
        track_index total_tracks).1
      = (probeExts.find? (fun e => env.onDisk
          ((output_dir ++ "/" ++ sanitize_filename (artist_name ++ " - " ++ track_name)) ++ e))).map
          (fun e => (output_dir ++ "/" ++ sanitize_filename (artist_name ++ " - " ++ track_name)) ++ e) := by
  cases hfind : probeExts.find? (fun e => env.onDisk
      ((output_dir ++ "/" ++ sanitize_filename (artist_name ++ " - " ++ track_name)) ++ e)) with
  | none =>
      have hid : identifyFile env
          (output_dir ++ "/" ++ sanitize_filename (artist_name ++ " - " ++ track_name))
          = none := by
        simp only [identifyFile]
        rw [hnew]
        simp [truthy, hinfo, hfn, hrq, fileMissing, hcon, hglob, hfind, finalCheck]
      simp [download_track, hs, cancelled_at, hookCancelIndex_none, hdr, hid]
  | some e =>
      have hp : env.onDisk
          ((output_dir ++ "/" ++ sanitize_filename (artist_name ++ " - " ++ track_name)) ++ e)
          = true := by simpa using List.find?_some hfind
      have hmem : e ∈ probeExts := List.mem_of_find?_eq_some hfind
      have hene : e ≠ "" := by fin_cases hmem <;> decide
      have hne2 : ((output_dir ++ "/" ++ sanitize_filename (artist_name ++ " - " ++ track_name))
          ++ e == "") = false := by
        simpa using append_right_ne _ e hene
      have hid : identifyFile env
          (output_dir ++ "/" ++ sanitize_filename (artist_name ++ " - " ++ track_name))
          = some ((output_dir ++ "/" ++ sanitize_filename (artist_name ++ " - " ++ track_name)) ++ e) := by
        simp only [identifyFile]
        rw [hnew]
        simp [truthy, hinfo, hfn, hrq, fileMissing, hcon, hglob, hfind, finalCheck, hp, hne2]
      simp [download_track, hs, cancelled_at, hookCancelIndex_none, hdr, hid]

def envC4w : TrackEnv :=
  { search := fun _ => .found (some "u") none
    beforeGlob := []
    afterGlob := []
    hookPolls := 0
    dlRaises := none
    info := some ⟨none, [], some "m4a"⟩
    globStem := []
    onDisk := fun s => s == "d/A - T.mp3" }

/-- Witness for the amended C4: with all earlier strategies failing and only
d/A - T.mp3 on disk, the probe chain finds it (fourth probed extension). -/
theorem C4_witness :
    (download_track envC4w none 0 "T" "A" "" "d" 1 1).1 = some "d/A - T.mp3" := by
  have h := C4_amended_theorem envC4w 0 "T" "A" "" "d" 1 1 ⟨none, [], some "m4a"⟩
    (by decide) rfl rfl rfl rfl (by decide) rfl (by decide)
  exact h.trans (by decide)

/- ------------------------------------------------------------------ -/
/- Playlist Orchestrator: `download_playlist` (source lines 479-575)   -/
/- ------------------------------------------------------------------ -/

/-- The result dict of `download_playlist` (source lines 499-506). -/
structure BatchResult where
  success : Bool
  total : Nat
  downloaded : Nat
  failed : Nat
  failed_tracks : List (String × String)
  output_files : List String
deriving DecidableEq, Repr

/-- The initial result dict (source lines 499-506). -/
def initResult : BatchResult := ⟨false, 0, 0, 0, [], []⟩

/-- The skip-instrumentals test (source lines 538-540): case-insensitive
substring match on the track name only. -/
def skipTrack (track_name : String) : Bool :=
  containsSub (lowerStr track_name) "instrumental"
    || containsSub (lowerStr track_name) "karaoke"

/-- The per-track accounting (source lines 557-565): a returned path
increments downloaded and joins output_files in order; None increments
failed and appends the track/artist pair to failed_tracks. -/
def applyOutcome (res : BatchResult) (track_name artist_name : String) :
    Option String → BatchResult
  | some p =>
      { res with downloaded := res.downloaded + 1,
                 output_files := res.output_files ++ [p] }
  | none =>
      { res with failed := res.failed + 1,
                 failed_tracks := res.failed_tracks ++ [(track_name, artist_name)] }

/-- A whole-run environment: one TrackEnv per 0-based track position, and the
cancellation threshold shared by every flag read of the run (the counter
starts at 0 when download_playlist calls reset_cancel). -/
structure PlaylistEnv where
  envs : Nat → TrackEnv
  cancelAt : Option Nat

/-- State returned by the track loop: the result dict, the events emitted by
the loop, the poll counter after the loop, and whether the loop exited
through the cancellation break. -/
structure LoopState where
  res : BatchResult
  events : List Event
  ctr : Nat
  broke : Bool
deriving DecidableEq, Repr

/-- The track loop of `download_playlist` (source lines 525-565), iterating
with 0-based index i.  Each iteration reads the flag once at the loop head
(line 526): if set, it emits `cancelled` with the downloaded count and the
number of remaining tracks and breaks.  A skipped instrumental consumes no
download and emits `track_skipped`.  Otherwise download_track runs and its
outcome is accounted by applyOutcome. -/
def playlistLoop (penv : PlaylistEnv) (output_dir : String)
    (skip_instrumentals : Bool) (total : Nat) :
    List Track → Nat → Nat → BatchResult → LoopState
  | [], _, ctr, res => ⟨res, [], ctr, false⟩
  | t :: rest, i, ctr, res =>
    if cancelled_at penv.cancelAt ctr then
      ⟨res, [.cancelled res.downloaded (total - i)], ctr + 1, true⟩
    else
      let track_name := t.track_name.getD ""
      if skip_instrumentals && skipTrack track_name then
        let s := playlistLoop penv output_dir skip_instrumentals total rest (i + 1) (ctr + 1) res
        ⟨s.res, .track_skipped (i + 1) track_name :: s.events, s.ctr, s.broke⟩
      else
        let r := download_track (penv.envs i) penv.cancelAt (ctr + 1) track_name
          (t.artist_name.getD "") (t.album_name.getD "") output_dir (i + 1) total
        let s := playlistLoop penv output_dir skip_instrumentals total rest (i + 1) r.2.2
          (applyOutcome res track_name (t.artist_name.getD "") r.1)
        ⟨s.res, r.2.1 ++ s.events, s.ctr, s.broke⟩

/-- `download_playlist` (source lines 479-575): parse the CSV; with no valid
tracks emit an `error` event and return the zero result; otherwise set total,
emit `playlist_start`, run the loop from index 0 and poll tick 0, set
success = downloaded > 0, emit `playlist_complete` (after the loop, also when
it broke on cancellation), and return. -/
def download_playlist (penv : PlaylistEnv) (input : CsvInput) (output_dir : String)
    (skip_instrumentals : Bool) : BatchResult × List Event :=
  let tracks := parse_csv input
  if tracks.isEmpty then
    (initResult, [.error "No valid tracks found in CSV"])
  else
    let total := tracks.length
    let s := playlistLoop penv output_dir skip_instrumentals total tracks 0 0
      { initResult with total := total }
    let res := { s.res with success := decide (0 < s.res.downloaded) }
    (res, .playlist_start total
      :: (s.events ++ [.playlist_complete res.total res.downloaded res.failed]))

/- Step equations for the loop. -/

theorem playlistLoop_nil (penv : PlaylistEnv) (d : String) (sk : Bool) (total i ctr : Nat)
    (res : BatchResult) :
    playlistLoop penv d sk total [] i ctr res = ⟨res, [], ctr, false⟩ := rfl

theorem playlistLoop_cancel (penv : PlaylistEnv) (d : String) (sk : Bool) (total : Nat)
    (t : Track) (rest : List Track) (i ctr : Nat) (res : BatchResult)
    (hc : cancelled_at penv.cancelAt ctr = true) :
    playlistLoop penv d sk total (t :: rest) i ctr res
      = ⟨res, [.cancelled res.downloaded (total - i)], ctr + 1, true⟩ := by
  simp [playlistLoop, hc]

theorem playlistLoop_skip (penv : PlaylistEnv) (d : String) (sk : Bool) (total : Nat)
    (t : Track) (rest : List Track) (i ctr : Nat) (res : BatchResult)
    (hc : cancelled_at penv.cancelAt ctr = false)
    (hsk : (sk && skipTrack (t.track_name.getD "")) = true) :
    playlistLoop penv d sk total (t :: rest) i ctr res
      = { playlistLoop penv d sk total rest (i + 1) (ctr + 1) res with
          events := .track_skipped (i + 1) (t.track_name.getD "")
            :: (playlistLoop penv d sk total rest (i + 1) (ctr + 1) res).events } := by
  simp [playlistLoop, hc, hsk]

theorem playlistLoop_step (penv : PlaylistEnv) (d : String) (sk : Bool) (total : Nat)
    (t : Track) (rest : List Track) (i ctr : Nat) (res : BatchResult)
    (hc : cancelled_at penv.cancelAt ctr = false)
    (hsk : (sk && skipTrack (t.track_name.getD "")) = false) :
    playlistLoop penv d sk total (t :: rest) i ctr res
      = { playlistLoop penv d sk total rest (i + 1)
            (download_track (penv.envs i) penv.cancelAt (ctr + 1) (t.track_name.getD "")
              (t.artist_name.getD "") (t.album_name.getD "") d (i + 1) total).2.2
            (applyOutcome res (t.track_name.getD "") (t.artist_name.getD "")
              (download_track (penv.envs i) penv.cancelAt (ctr + 1) (t.track_name.getD "")
                (t.artist_name.getD "") (t.album_name.getD "") d (i + 1) total).1) with
          events := (download_track (penv.envs i) penv.cancelAt (ctr + 1) (t.track_name.getD "")
              (t.artist_name.getD "") (t.album_name.getD "") d (i + 1) total).2.1
            ++ (playlistLoop penv d sk total rest (i + 1)
                (download_track (penv.envs i) penv.cancelAt (ctr + 1) (t.track_name.getD "")
                  (t.artist_name.getD "") (t.album_name.getD "") d (i + 1) total).2.2
                (applyOutcome res (t.track_name.getD "") (t.artist_name.getD "")
                  (download_track (penv.envs i) penv.cancelAt (ctr + 1) (t.track_name.getD "")
                    (t.artist_name.getD "") (t.album_name.getD "") d (i + 1) total).1)).events } := by
  simp [playlistLoop, hc, hsk]

/- applyOutcome bookkeeping. -/

theorem applyOutcome_total (res : BatchResult) (tn an : String) (o : Option String) :
    (applyOutcome res tn an o).total = res.total := by
  cases o <;> simp [applyOutcome]

theorem applyOutcome_sum (res : BatchResult) (tn an : String) (o : Option String) :
    (applyOutcome res tn an o).downloaded + (applyOutcome res tn an o).failed
      = res.downloaded + res.failed + 1 := by
  cases o <;> simp [applyOutcome] <;> omega

theorem applyOutcome_dl_inv (res : BatchResult) (tn an : String) (o : Option String)
    (h : res.downloaded = res.output_files.length) :
    (applyOutcome res tn an o).downloaded = (applyOutcome res tn an o).output_files.length := by
  cases o <;> simp [applyOutcome, h]

theorem applyOutcome_fail_inv (res : BatchResult) (tn an : String) (o : Option String)
    (h : res.failed = res.failed_tracks.length) :
    (applyOutcome res tn an o).failed = (applyOutcome res tn an o).failed_tracks.length := by
  cases o <;> simp [applyOutcome, h]

/-- Loop invariant: the loop preserves total, adds at most one count per
consumed track, and maintains downloaded = |output_files| and
failed = |failed_tracks|. -/
theorem playlistLoop_invariant (penv : PlaylistEnv) (d : String) (sk : Bool) (total : Nat) :
    ∀ (tl : List Track) (i ctr : Nat) (res : BatchResult),
      ((playlistLoop penv d sk total tl i ctr res).res.total = res.total)
      ∧ ((playlistLoop penv d sk total tl i ctr res).res.downloaded
          + (playlistLoop penv d sk total tl i ctr res).res.failed
          ≤ res.downloaded + res.failed + tl.length)
      ∧ (res.downloaded = res.output_files.length →
          (playlistLoop penv d sk total tl i ctr res).res.downloaded
            = (playlistLoop penv d sk total tl i ctr res).res.output_files.length)
      ∧ (res.failed = res.failed_tracks.length →
          (playlistLoop penv d sk total tl i ctr res).res.failed
            = (playlistLoop penv d sk total tl i ctr res).res.failed_tracks.length) := by
  intro tl
  induction tl with
  | nil =>
      intro i ctr res
      simp [playlistLoop_nil]
  | cons t rest ih =>
      intro i ctr res
      by_cases hc : cancelled_at penv.cancelAt ctr = true
      · rw [playlistLoop_cancel penv d sk total t rest i ctr res hc]
        exact ⟨rfl, by simp, fun h => h, fun h => h⟩
      · have hc2 : cancelled_at penv.cancelAt ctr = false := by simpa using hc
        by_cases hsk : (sk && skipTrack (t.track_name.getD "")) = true
        · rw [playlistLoop_skip penv d sk total t rest i ctr res hc2 hsk]
          obtain ⟨h1, h2, h3, h4⟩ := ih (i + 1) (ctr + 1) res
          refine ⟨h1, ?_, h3, h4⟩
          simp only [List.length_cons]
          omega
        · have hsk2 : (sk && skipTrack (t.track_name.getD "")) = false := by simpa using hsk
          rw [playlistLoop_step penv d sk total t rest i ctr res hc2 hsk2]
          obtain ⟨h1, h2, h3, h4⟩ := ih (i + 1)
            (download_track (penv.envs i) penv.cancelAt (ctr + 1) (t.track_name.getD "")
              (t.artist_name.getD "") (t.album_name.getD "") d (i + 1) total).2.2
            (applyOutcome res (t.track_name.getD "") (t.artist_name.getD "")
              (download_track (penv.envs i) penv.cancelAt (ctr + 1) (t.track_name.getD "")
                (t.artist_name.getD "") (t.album_name.getD "") d (i + 1) total).1)
          have hsum := applyOutcome_sum res (t.track_name.getD "") (t.artist_name.getD "")
            (download_track (penv.envs i) penv.cancelAt (ctr + 1) (t.track_name.getD "")
              (t.artist_name.getD "") (t.album_name.getD "") d (i + 1) total).1
          have htot := applyOutcome_total res (t.track_name.getD "") (t.artist_name.getD "")
            (download_track (penv.envs i) penv.cancelAt (ctr + 1) (t.track_name.getD "")
              (t.artist_name.getD "") (t.album_name.getD "") d (i + 1) total).1
          refine ⟨by rw [h1, htot], ?_, ?_, ?_⟩
          · simp only [List.length_cons]
            omega
          · intro h
            exact h3 (applyOutcome_dl_inv _ _ _ _ h)
          · intro h
            exact h4 (applyOutcome_fail_inv _ _ _ _ h)

/-- The loop is compositional across a split of the track list as long as the
first part did not break on cancellation. -/
theorem playlistLoop_append (penv : PlaylistEnv) (d : String) (sk : Bool) (total : Nat) :
    ∀ (l1 l2 : List Track) (i ctr : Nat) (res : BatchResult),
      (playlistLoop penv d sk total l1 i ctr res).broke = false →
      playlistLoop penv d sk total (l1 ++ l2) i ctr res
        = ⟨(playlistLoop penv d sk total l2 (i + l1.length)
              (playlistLoop penv d sk total l1 i ctr res).ctr
              (playlistLoop penv d sk total l1 i ctr res).res).res,
           (playlistLoop penv d sk total l1 i ctr res).events
             ++ (playlistLoop penv d sk total l2 (i + l1.length)
                  (playlistLoop penv d sk total l1 i ctr res).ctr
                  (playlistLoop penv d sk total l1 i ctr res).res).events,
           (playlistLoop penv d sk total l2 (i + l1.length)
              (playlistLoop penv d sk total l1 i ctr res).ctr
              (playlistLoop penv d sk total l1 i ctr res).res).ctr,
           (playlistLoop penv d sk total l2 (i + l1.length)
              (playlistLoop penv d sk total l1 i ctr res).ctr
              (playlistLoop penv d sk total l1 i ctr res).res).broke⟩ := by
  intro l1
  induction l1 with
  | nil =>
      intro l2 i ctr res hbr
      simp [playlistLoop_nil]
  | cons t r1 ih =>
      intro l2 i ctr res hbr
      by_cases hc : cancelled_at penv.cancelAt ctr = true
      · rw [playlistLoop_cancel penv d sk total t r1 i ctr res hc] at hbr
        simp at hbr
      · have hc2 : cancelled_at penv.cancelAt ctr = false := by simpa using hc
        by_cases hsk : (sk && skipTrack (t.track_name.getD "")) = true
        · rw [playlistLoop_skip penv d sk total t r1 i ctr res hc2 hsk] at hbr
          have hbr2 : (playlistLoop penv d sk total r1 (i + 1) (ctr + 1) res).broke = false := hbr
          rw [List.cons_append,
            playlistLoop_skip penv d sk total t (r1 ++ l2) i ctr res hc2 hsk,
            ih l2 (i + 1) (ctr + 1) res hbr2,
            playlistLoop_skip penv d sk total t r1 i ctr res hc2 hsk]
          simp [List.length_cons, Nat.add_assoc, Nat.add_comm, Nat.add_left_comm]
        · have hsk2 : (sk && skipTrack (t.track_name.getD "")) = false := by simpa using hsk
          rw [playlistLoop_step penv d sk total t r1 i ctr res hc2 hsk2] at hbr
          have hbr2 : (playlistLoop penv d sk total r1 (i + 1)
              (download_track (penv.envs i) penv.cancelAt (ctr + 1) (t.track_name.getD "")
                (t.artist_name.getD "") (t.album_name.getD "") d (i + 1) total).2.2
              (applyOutcome res (t.track_name.getD "") (t.artist_name.getD "")
                (download_track (penv.envs i) penv.cancelAt (ctr + 1) (t.track_name.getD "")
                  (t.artist_name.getD "") (t.album_name.getD "") d (i + 1) total).1)).broke
              = false := hbr
          rw [List.cons_append,
            playlistLoop_step penv d sk total t (r1 ++ l2) i ctr res hc2 hsk2,
            ih l2 (i + 1) _ _ hbr2,
            playlistLoop_step penv d sk total t r1 i ctr res hc2 hsk2]
          simp [List.length_cons, Nat.add_assoc, Nat.add_comm, Nat.add_left_comm]

/-- When cancellation is never requested and every per-track download returns
a path, the loop adds exactly the downloaded paths in order. -/
theorem playlistLoop_allSuccess (penv : PlaylistEnv) (d : String) (total : Nat)
    (paths : Nat → String) (hc : penv.cancelAt = none) :
    ∀ (tl : List Track) (i ctr : Nat) (res : BatchResult),
      (∀ j, j < tl.length → ∀ c,
        (download_track (penv.envs (i + j)) penv.cancelAt c
          ((tl.getD j default).track_name.getD "")
          ((tl.getD j default).artist_name.getD "")
          ((tl.getD j default).album_name.getD "") d (i + j + 1) total).1
          = some (paths (i + j))) →
      (playlistLoop penv d false total tl i ctr res).res
        = { res with downloaded := res.downloaded + tl.length,
                     output_files := res.output_files
                       ++ (List.range tl.length).map (fun j => paths (i + j)) } := by
  intro tl
  induction tl with
  | nil =>
      intro i ctr res hH
      simp [playlistLoop_nil]
  | cons t rest ih =>
      intro i ctr res hH
      have hc0 : cancelled_at penv.cancelAt ctr = false := by simp [hc, cancelled_at]
      have hsk : (false && skipTrack (t.track_name.getD "")) = false := rfl
      have hstep : (playlistLoop penv d false total (t :: rest) i ctr res).res
          = (playlistLoop penv d false total rest (i + 1)
              (download_track (penv.envs i) penv.cancelAt (ctr + 1) (t.track_name.getD "")
                (t.artist_name.getD "") (t.album_name.getD "") d (i + 1) total).2.2
              (applyOutcome res (t.track_name.getD "") (t.artist_name.getD "")
                (download_track (penv.envs i) penv.cancelAt (ctr + 1) (t.track_name.getD "")
                  (t.artist_name.getD "") (t.album_name.getD "") d (i + 1) total).1)).res := by
        rw [playlistLoop_step penv d false total t rest i ctr res hc0 hsk]
      have hdl := hH 0 (by simp) (ctr + 1)
      simp only [List.getD_cons_zero, Nat.add_zero] at hdl
      have hH2 : ∀ j, j < rest.length → ∀ c,
          (download_track (penv.envs (i + 1 + j)) penv.cancelAt c
            ((rest.getD j default).track_name.getD "")
            ((rest.getD j default).artist_name.getD "")
            ((rest.getD j default).album_name.getD "") d (i + 1 + j + 1) total).1
            = some (paths (i + 1 + j)) := by
        intro j hj c
        have hshift : i + (j + 1) = i + 1 + j := by omega
        have h0 := hH (j + 1) (by simpa using Nat.succ_lt_succ hj) c
        simpa [List.getD_cons_succ, hshift] using h0
      have hres := ih (i + 1)
        (download_track (penv.envs i) penv.cancelAt (ctr + 1) (t.track_name.getD "")
          (t.artist_name.getD "") (t.album_name.getD "") d (i + 1) total).2.2
        (applyOutcome res (t.track_name.getD "") (t.artist_name.getD "")
          (download_track (penv.envs i) penv.cancelAt (ctr + 1) (t.track_name.getD "")
            (t.artist_name.getD "") (t.album_name.getD "") d (i + 1) total).1)
        hH2
      rw [hstep, hdl] at *
      rw [hres]
      simp [applyOutcome, List.length_cons, List.range_succ_eq_map, List.map_map,
        Function.comp, Nat.succ_eq_add_one, List.append_assoc, Nat.add_assoc,
        Nat.add_comm, Nat.add_left_comm]

/-- The result invariant of download_playlist over every return path. -/
theorem download_playlist_invariant (penv : PlaylistEnv) (input : CsvInput)
    (output_dir : String) (sk : Bool) :
    ((download_playlist penv input output_dir sk).1.downloaded
        = (download_playlist penv input output_dir sk).1.output_files.length)
    ∧ ((download_playlist penv input output_dir sk).1.failed
        = (download_playlist penv input output_dir sk).1.failed_tracks.length)
    ∧ ((download_playlist penv input output_dir sk).1.downloaded
          + (download_playlist penv input output_dir sk).1.failed
        ≤ (download_playlist penv input output_dir sk).1.total)
    ∧ ((download_playlist penv input output_dir sk).1.success
        = decide (0 < (download_playlist penv input output_dir sk).1.downloaded)) := by
  by_cases he : (parse_csv input).isEmpty
  · have hdp : download_playlist penv input output_dir sk
        = (initResult, [.error "No valid tracks found in CSV"]) := by
      simp [download_playlist, he]
    rw [hdp]
    exact ⟨rfl, rfl, Nat.le_refl 0, rfl⟩
  · have he2 : (parse_csv input).isEmpty = false := by simpa using he
    obtain ⟨h1, h2, h3, h4⟩ := playlistLoop_invariant penv output_dir sk
      (parse_csv input).length (parse_csv input) 0 0
      { initResult with total := (parse_csv input).length }
    have hdp : (download_playlist penv input output_dir sk).1
        = { (playlistLoop penv output_dir sk (parse_csv input).length (parse_csv input) 0 0
              { initResult with total := (parse_csv input).length }).res
            with success := decide (0 <
              (playlistLoop penv output_dir sk (parse_csv input).length (parse_csv input) 0 0
                { initResult with total := (parse_csv input).length }).res.downloaded) } := by
      simp [download_playlist, he2]
    rw [hdp]
    have h1b : (playlistLoop penv output_dir sk (parse_csv input).length (parse_csv input) 0 0
        { initResult with total := (parse_csv input).length }).res.total
        = (parse_csv input).length := h1
    have h2b : (playlistLoop penv output_dir sk (parse_csv input).length (parse_csv input) 0 0
        { initResult with total := (parse_csv input).length }).res.downloaded
        + (playlistLoop penv output_dir sk (parse_csv input).length (parse_csv input) 0 0
            { initResult with total := (parse_csv input).length }).res.failed
        ≤ 0 + 0 + (parse_csv input).length := h2
    refine ⟨h3 rfl, h4 rfl, ?_, rfl⟩
    show (playlistLoop penv output_dir sk (parse_csv input).length (parse_csv input) 0 0
        { initResult with total := (parse_csv input).length }).res.downloaded
      + (playlistLoop penv output_dir sk (parse_csv input).length (parse_csv input) 0 0
          { initResult with total := (parse_csv input).length }).res.failed
      ≤ (playlistLoop penv output_dir sk (parse_csv input).length (parse_csv input) 0 0
          { initResult with total := (parse_csv input).length }).res.total
    rw [h1b]
    omega

/-- C10: every dict returned by download_playlist — from the zero-track
short-circuit, a cancelled run, or normal completion — satisfies
downloaded = |output_files|, failed = |failed_tracks|,
downloaded + failed ≤ total and success = (downloaded > 0); each processed
track increments exactly one of the two counters (applyOutcome adds exactly
one to their sum) and a skipped instrumental track leaves the result dict
unchanged. -/
theorem C10_theorem (penv : PlaylistEnv) (input : CsvInput) (output_dir : String)
    (skip_instrumentals : Bool) :
    ((download_playlist penv input output_dir skip_instrumentals).1.downloaded
        = (download_playlist penv input output_dir skip_instrumentals).1.output_files.length)
    ∧ ((download_playlist penv input output_dir skip_instrumentals).1.failed
        = (download_playlist penv input output_dir skip_instrumentals).1.failed_tracks.length)
    ∧ ((download_playlist penv input output_dir skip_instrumentals).1.downloaded
          + (download_playlist penv input output_dir skip_instrumentals).1.failed
        ≤ (download_playlist penv input output_dir skip_instrumentals).1.total)
    ∧ ((download_playlist penv input output_dir skip_instrumentals).1.success
        = decide (0 < (download_playlist penv input output_dir skip_instrumentals).1.downloaded))
    ∧ (∀ (res : BatchResult) (tn an : String) (o : Option String),
        (applyOutcome res tn an o).downloaded + (applyOutcome res tn an o).failed
          = res.downloaded + res.failed + 1)
    ∧ (∀ (envs : Nat → TrackEnv) (total : Nat) (rest : List Track) (i ctr : Nat)
          (res : BatchResult),
        (playlistLoop ⟨envs, none⟩ output_dir true total
            ({ track_name := some "Song (Instrumental)", artist_name := some "A",
               album_name := none } :: rest) i ctr res).res
          = (playlistLoop ⟨envs, none⟩ output_dir true total rest (i + 1) (ctr + 1) res).res) := by
  obtain ⟨g1, g2, g3, g4⟩ := download_playlist_invariant penv input output_dir skip_instrumentals
  refine ⟨g1, g2, g3, g4, fun res tn an o => applyOutcome_sum res tn an o, ?_⟩
  intro envs total rest i ctr res
  have hc0 : cancelled_at (⟨envs, none⟩ : PlaylistEnv).cancelAt ctr = false := rfl
  rw [playlistLoop_skip ⟨envs, none⟩ output_dir true total
    ⟨some "Song (Instrumental)", some "A", none⟩ rest i ctr res hc0 (by decide)]

/- ------------------------------------------------------------------ -/
/- Claim C7                                                            -/
/- ------------------------------------------------------------------ -/

/-- C7: with skipInstrumentals=false, no cancellation and every per-track
call returning a path, the returned BatchResult has total = N,
downloaded = N, failed = 0 and output_files listing the N downloaded paths in
the original track order. -/
theorem C7_theorem (penv : PlaylistEnv) (input : CsvInput) (output_dir : String)
    (tracks : List Track) (N : Nat) (paths : Nat → String)
    (hp : parse_csv input = tracks)
    (hN : tracks.length = N)
    (hc : penv.cancelAt = none)
    (hH : ∀ j, j < N → ∀ c,
      (download_track (penv.envs j) penv.cancelAt c
        ((tracks.getD j default).track_name.getD "")
        ((tracks.getD j default).artist_name.getD "")
        ((tracks.getD j default).album_name.getD "") output_dir (j + 1) N).1
        = some (paths j)) :
    ((download_playlist penv input output_dir false).1.total = N)
    ∧ ((download_playlist penv input output_dir false).1.downloaded = N)
    ∧ ((download_playlist penv input output_dir false).1.failed = 0)
    ∧ ((download_playlist penv input output_dir false).1.output_files
        = (List.range N).map paths) := by
  by_cases hemp : tracks = []
  · subst hemp
    have hN0 : N = 0 := by simpa using hN.symm
    subst hN0
    have hdp : download_playlist penv input output_dir false
        = (initResult, [.error "No valid tracks found in CSV"]) := by
      simp [download_playlist, hp]
    rw [hdp]
    exact ⟨rfl, rfl, rfl, rfl⟩
  · have he2 : tracks.isEmpty = false := by
      cases tracks with
      | nil => exact absurd rfl hemp
      | cons a l => rfl
    have hH0 : ∀ j, j < tracks.length → ∀ c,
        (download_track (penv.envs (0 + j)) penv.cancelAt c
          ((tracks.getD j default).track_name.getD "")
          ((tracks.getD j default).artist_name.getD "")
          ((tracks.getD j default).album_name.getD "") output_dir (0 + j + 1) N).1
          = some (paths (0 + j)) := by
      intro j hj c
      have hjN : j < N := by omega
      simpa [Nat.zero_add] using hH j hjN c
    have hloop := playlistLoop_allSuccess penv output_dir N paths hc tracks 0 0
      { initResult with total := N } hH0
    have hdp : (download_playlist penv input output_dir false).1
        = { (playlistLoop penv output_dir false tracks.length tracks 0 0
              { initResult with total := tracks.length }).res
            with success := decide (0 <
              (playlistLoop penv output_dir false tracks.length tracks 0 0
                { initResult with total := tracks.length }).res.downloaded) } := by
      simp [download_playlist, hp, he2, hemp]
    rw [hdp, hN, hloop]
    refine ⟨rfl, by simp [initResult, hN], rfl, ?_⟩
    simp [initResult, hN]

def envC7t : TrackEnv :=
  { search := fun _ => .found (some "u") none
    beforeGlob := []
    afterGlob := ["d/A - T.m4a"]
    hookPolls := 0
    dlRaises := none
    info := none
    globStem := []
    onDisk := fun s => s == "d/A - T.m4a" }

def penvC7 : PlaylistEnv := ⟨fun _ => envC7t, none⟩

def inputC7 : CsvInput := ⟨["title", "artist"], [["T", "A"]], false⟩

/-- Witness for C7: a one-track CSV with an always-succeeding environment
gives total 1, downloaded 1, failed 0 and the single path in order. -/
theorem C7_witness :
    ((download_playlist penvC7 inputC7 "d" false).1.total = 1)
    ∧ ((download_playlist penvC7 inputC7 "d" false).1.downloaded = 1)
    ∧ ((download_playlist penvC7 inputC7 "d" false).1.failed = 0)
    ∧ ((download_playlist penvC7 inputC7 "d" false).1.output_files = ["d/A - T.m4a"]) := by
  have h := C7_theorem penvC7 inputC7 "d"
    [{ track_name := some "T", artist_name := some "A", album_name := none }] 1
    (fun _ => "d/A - T.m4a") (by decide) rfl rfl ?_
  · exact ⟨h.1, h.2.1, h.2.2.1, by rw [h.2.2.2]; decide⟩
  · intro j hj c
    have hj0 : j = 0 := by omega
    subst hj0
    rfl

/- ------------------------------------------------------------------ -/
/- Claim C1                                                            -/
/- ------------------------------------------------------------------ -/

def envC1t : TrackEnv :=
  { search := fun _ => .found (some "u") none
    beforeGlob := []
    afterGlob := []
    hookPolls := 1
    dlRaises := none
    info := none
    globStem := []
    onDisk := fun _ => false }

def penvC1 : PlaylistEnv := ⟨fun _ => envC1t, some 3⟩

def inputC1 : CsvInput := ⟨["title", "artist"], [["T", "A"]], false⟩

/-- C1 counterexample: the claim says a track whose processing ends in the
Cancelled outcome is not appended to failedTracks and does not increment
failedCount.  Here the cancellation request lands at poll tick 3, which is
read by the progress hook during track 1's download: the hook raises the
cancellation signal, download_track returns None through the
"cancelled"-message handler — the event list shows no track_failed, so this
run is the cancellation path, not a NotFound/Error — and the orchestrator
nevertheless records failed = 1 and failedTracks = [("T", "A")]. -/
theorem C1_counterexample :
    download_playlist penvC1 inputC1 "d" false
      = (⟨false, 1, 0, 1, [("T", "A")], []⟩,
         [.playlist_start 1, .track_start 1 1 "T" "A", .track_progress 1 "T" "A",
          .playlist_complete 1 0 1]) := by
  decide

/-- C1 (amended): the orchestrator cannot distinguish outcomes — download
track returns a bare Optional path — so every None outcome of a processed
track, the Cancelled ones included, increments failedCount and appends
{track, artist} to failedTracks; only the loop-level cancellation
short-circuit (flag seen at the loop head before the track starts) leaves the
counters and failedTracks untouched. -/
theorem C1_amended_theorem (penv : PlaylistEnv) (output_dir : String) (total : Nat)
    (t : Track) (i ctr : Nat) (res : BatchResult)
    (hhead : cancelled_at penv.cancelAt ctr = false)
    (hdl : (download_track (penv.envs i) penv.cancelAt (ctr + 1) (t.track_name.getD "")
        (t.artist_name.getD "") (t.album_name.getD "") output_dir (i + 1) total).1 = none) :
    (playlistLoop penv output_dir false total [t] i ctr res).res
      = { res with failed := res.failed + 1,
                   failed_tracks := res.failed_tracks
                     ++ [(t.track_name.getD "", t.artist_name.getD "")] } := by
  have hsk : (false && skipTrack (t.track_name.getD "")) = false := rfl
  have hstep : (playlistLoop penv output_dir false total [t] i ctr res).res
      = (playlistLoop penv output_dir false total [] (i + 1)
          (download_track (penv.envs i) penv.cancelAt (ctr + 1) (t.track_name.getD "")
            (t.artist_name.getD "") (t.album_name.getD "") output_dir (i + 1) total).2.2
          (applyOutcome res (t.track_name.getD "") (t.artist_name.getD "")
            (download_track (penv.envs i) penv.cancelAt (ctr + 1) (t.track_name.getD "")
              (t.artist_name.getD "") (t.album_name.getD "") output_dir (i + 1) total).1)).res := by
    rw [playlistLoop_step penv output_dir false total t [] i ctr res hhead hsk]
  rw [hstep, hdl, playlistLoop_nil]
  simp [applyOutcome]

def envC1w : TrackEnv :=
  { search := fun _ => .found (some "u") none
    beforeGlob := []
    afterGlob := []
    hookPolls := 1
    dlRaises := none
    info := none
    globStem := []
    onDisk := fun _ => false }

def penvC1w : PlaylistEnv := ⟨fun _ => envC1w, some 3⟩

/-- Witness for the amended C1: a hook-cancelled track (download_track
returns None via the cancellation signal) is charged to failed and
failed_tracks. -/
theorem C1_amended_witness :
    (playlistLoop penvC1w "d" false 1
        [{ track_name := some "T", artist_name := some "A", album_name := none }] 0 0
        { initResult with total := 1 }).res
      = ⟨false, 1, 0, 1, [("T", "A")], []⟩ := by
  have h := C1_amended_theorem penvC1w "d" 1
    ⟨some "T", some "A", none⟩ 0 0 { initResult with total := 1 } (by decide) (by decide)
  exact h.trans (by decide)

/- ------------------------------------------------------------------ -/
/- Claim C3                                                            -/
/- ------------------------------------------------------------------ -/

def envC3t : TrackEnv :=
  { search := fun _ => .empty
    beforeGlob := []
    afterGlob := []
    hookPolls := 0
    dlRaises := none
    info := none
    globStem := []
    onDisk := fun _ => false }

def penvC3 : PlaylistEnv := ⟨fun _ => envC3t, some 0⟩

def inputC3 : CsvInput := ⟨["title", "artist"], [["T", "A"]], false⟩

/-- C3 counterexample: the claim says a `cancelled` progress event is the
last event emitted by a cancelled run.  With the flag set before track 1 of
1, the run emits playlist_start, cancelled — and then playlist_complete,
which the code emits unconditionally after the loop (source lines 569-573).
The last event is playlist_complete, not cancelled. -/
theorem C3_counterexample :
    ((download_playlist penvC3 inputC3 "d" false).2
      = [.playlist_start 1, .cancelled 0 1, .playlist_complete 1 0 0])
    ∧ ((download_playlist penvC3 inputC3 "d" false).2.getLast?
      = some (.playlist_complete 1 0 0)) := by
  exact ⟨by decide, by decide⟩

/-- C3 (amended): if the Cancellation Flag reads set at the loop-head check
of track k = done.length + 1 of N (the first done tracks having completed
without a cancellation break), the orchestrator initiates no further
resolution or download — the loop returns the accumulated result unchanged —
so downloadedCount + failedCount ≤ done.length < N, and a `cancelled` event
is emitted which is followed by exactly one further event: the final
`playlist_complete`, emitted unconditionally after the loop (so `cancelled`
is the second-to-last event of the run, not the last). -/
theorem C3_amended_theorem (penv : PlaylistEnv) (input : CsvInput) (output_dir : String)
    (sk : Bool) (done : List Track) (t : Track) (rest : List Track) (N : Nat)
    (hp : parse_csv input = done ++ t :: rest)
    (hN : (done ++ t :: rest).length = N)
    (hdone : (playlistLoop penv output_dir sk N done 0 0 { initResult with total := N }).broke
        = false)
    (hcan : cancelled_at penv.cancelAt
        (playlistLoop penv output_dir sk N done 0 0 { initResult with total := N }).ctr
        = true) :
    ((download_playlist penv input output_dir sk).1.downloaded
        + (download_playlist penv input output_dir sk).1.failed < N)
    ∧ ((download_playlist penv input output_dir sk).2
        = .playlist_start N
            :: ((playlistLoop penv output_dir sk N done 0 0 { initResult with total := N }).events
              ++ [.cancelled
                    (playlistLoop penv output_dir sk N done 0 0
                      { initResult with total := N }).res.downloaded
                    (N - done.length),
                  .playlist_complete N
                    (playlistLoop penv output_dir sk N done 0 0
                      { initResult with total := N }).res.downloaded
                    (playlistLoop penv output_dir sk N done 0 0
                      { initResult with total := N }).res.failed])) := by
  have hfull : playlistLoop penv output_dir sk N (done ++ t :: rest) 0 0
      { initResult with total := N }
      = ⟨(playlistLoop penv output_dir sk N done 0 0 { initResult with total := N }).res,
         (playlistLoop penv output_dir sk N done 0 0 { initResult with total := N }).events
           ++ [.cancelled (playlistLoop penv output_dir sk N done 0 0
                { initResult with total := N }).res.downloaded (N - (0 + done.length))],
         (playlistLoop penv output_dir sk N done 0 0 { initResult with total := N }).ctr + 1,
         true⟩ := by
    rw [playlistLoop_append penv output_dir sk N done (t :: rest) 0 0
        { initResult with total := N } hdone,
      playlistLoop_cancel penv output_dir sk N t rest (0 + done.length)
        (playlistLoop penv output_dir sk N done 0 0 { initResult with total := N }).ctr
        (playlistLoop penv output_dir sk N done 0 0 { initResult with total := N }).res hcan]
  have hemp2 : (done ++ t :: rest).isEmpty = false := by
    cases done <;> rfl
  have htotal2 : (playlistLoop penv output_dir sk N done 0 0
      { initResult with total := N }).res.total = N :=
    (playlistLoop_invariant penv output_dir sk N done 0 0 { initResult with total := N }).1
  have hsum2 : (playlistLoop penv output_dir sk N done 0 0
        { initResult with total := N }).res.downloaded
      + (playlistLoop penv output_dir sk N done 0 0
          { initResult with total := N }).res.failed
      ≤ 0 + 0 + done.length :=
    (playlistLoop_invariant penv output_dir sk N done 0 0 { initResult with total := N }).2.1
  have hlt : done.length < N := by
    have h0 := hN
    simp [List.length_append] at h0
    omega
  constructor
  · have hres1 : (download_playlist penv input output_dir sk).1.downloaded
        = (playlistLoop penv output_dir sk N done 0 0
            { initResult with total := N }).res.downloaded := by
      simp [download_playlist, hp, hN, hemp2, hfull]
    have hres2 : (download_playlist penv input output_dir sk).1.failed
        = (playlistLoop penv output_dir sk N done 0 0
            { initResult with total := N }).res.failed := by
      simp [download_playlist, hp, hN, hemp2, hfull]
    rw [hres1, hres2]
    omega
  · simp [download_playlist, hp, hN, hemp2, hfull, htotal2]

def envC3w : TrackEnv :=
  { search := fun _ => .empty
    beforeGlob := []
    afterGlob := []
    hookPolls := 0
    dlRaises := none
    info := none
    globStem := []
    onDisk := fun _ => false }

def penvC3w : PlaylistEnv := ⟨fun _ => envC3w, some 0⟩

def inputC3w : CsvInput := ⟨["title", "artist"], [["T", "A"]], false⟩

/-- Witness for the amended C3: flag set before track 1 of 1, counts stay
below 1 and the event stream is playlist_start, cancelled, playlist_complete. -/
theorem C3_amended_witness :
    ((download_playlist penvC3w inputC3w "d" false).1.downloaded
        + (download_playlist penvC3w inputC3w "d" false).1.failed < 1)
    ∧ ((download_playlist penvC3w inputC3w "d" false).2
        = [.playlist_start 1, .cancelled 0 1, .playlist_complete 1 0 0]) := by
  have h := C3_amended_theorem penvC3w inputC3w "d" false []
    ⟨some "T", some "A", none⟩ [] 1 (by decide) rfl rfl (by decide)
  refine ⟨h.1, ?_⟩
  rw [h.2]
  decide
